import Mathlib

/-!
Verification development for the C.A.S.H. scoring engine
(`calculateCASHScoreV2` and its helpers).

The engine is a set of pure functions over scraped page content and an
optional Google Business Profile ("GMB") reputation profile.  The regex /
keyword detection layer of the source is embedded as a record of the exact
match results each calculator reads (`PageFeatures`); everything downstream
of that layer (scoring arithmetic, aggregation, business-type detection on
the raw strings, issue ranking, offer generation) is translated directly.

JavaScript `number` arithmetic is embedded as follows.  All quantities the
engine computes are non-negative integers except for four `Math.round`
sites.  Three of those (`Math.round(x/2)`, `Math.round(x/4)`,
`Math.round(x/10)` applied to small integers) are exact in binary64, so
they are embedded as the equivalent integer formulas `(x+1)/2`, `(x+2)/4`,
`(x+5)/10`.  The remaining site, `Math.round((total/maxPossible) * 100)` in
`normalizeCategoryScore`, is NOT exact in binary64 (for example
`(23/40)*100` evaluates to `57.49999999999999...`, so `Math.round` yields
57 although the exact value is 57.5); it is embedded through an explicit
integer model of correctly rounded binary64 division and multiplication
(`fpDiv`, `fpMul100`) followed by the exact `Math.round` rule
(round half toward positive infinity).

`Date.now()` (read by the offer generator to test review recency) is
modelled as an explicit parameter `now : Int` (epoch milliseconds).
GMB star ratings, which the source compares against 4.5, are embedded in
tenths of a star (`ratingTenths`, so 4.9 stars is 49) to keep all
arithmetic over integers; the source's comparisons against 4.5 become
comparisons against 45.
-/

namespace CashEngine

/-! ## String helpers

JavaScript `String.prototype.includes` and `toLowerCase` (the engine only
ever lowercases ASCII keyword text). -/

/-- Does the second list start with the first one? -/
def charsStartWith : List Char → List Char → Bool
  | [], _ => true
  | _ :: _, [] => false
  | a :: ps, b :: ss => a == b && charsStartWith ps ss

/-- Does the second list contain the first one as a contiguous run? -/
def charsContain (pat : List Char) : List Char → Bool
  | [] => pat.isEmpty
  | b :: ss => charsStartWith pat (b :: ss) || charsContain pat ss

/-- JavaScript `s.includes(pat)`: substring containment. -/
def strContains (s pat : String) : Bool := charsContain pat.toList s.toList

/-- ASCII lowercase of one character (the only case JavaScript
`toLowerCase` needs for the engine's ASCII keyword tables). -/
def jsLowerChar (c : Char) : Char :=
  if 65 ≤ c.toNat ∧ c.toNat ≤ 90 then Char.ofNat (c.toNat + 32) else c

/-- JavaScript `s.toLowerCase()` on ASCII text. -/
def jsToLower (s : String) : String := String.mk (s.toList.map jsLowerChar)

/-! ## Exact model of the binary64 arithmetic used by `normalizeCategoryScore`

A positive finite double is represented as a pair `(m, e)` of a significand
and a binary exponent, with value `m * 2^e`; `m` has at most 53 bits after
normalization.  `rheDiv` is round-half-even integer division, the IEEE 754
default rounding. -/

/-- Round-half-even division: the integer nearest to `a / b` (`b > 0`),
ties to the even neighbour. -/
def rheDiv (a b : Nat) : Nat :=
  let q := a / b
  let r := a % b
  if 2 * r < b then q
  else if b < 2 * r then q + 1
  else if q % 2 = 0 then q else q + 1

/-- Bit length by fuel-bounded binary recursion (the inputs of the engine
are far below `2 ^ 128`). -/
def bitLenAux : Nat → Nat → Nat
  | 0, _ => 0
  | fuel + 1, n => if n = 0 then 0 else bitLenAux fuel (n / 2) + 1

/-- Number of binary digits of `n` (`0` for `0`). -/
def bitLen (n : Nat) : Nat := bitLenAux 128 n

/-- Significand candidate for `a / b` at scale `s`:
round-half-even of `a * 2^s / b`. -/
def fpDivAux (a b : Nat) (s : Int) : Nat :=
  if 0 ≤ s then rheDiv (a * 2 ^ s.toNat) b else rheDiv a (b * 2 ^ (-s).toNat)

/-- Correctly rounded binary64 division of positive integers `a / b`,
returned as significand and exponent.  The scale `s` puts the quotient
into `(2^52, 2^54)`; if the rounded significand reaches `2^53` the
quotient is re-rounded one position coarser (re-rounding from the exact
quotient, so no double rounding occurs). -/
def fpDiv (a b : Nat) : Nat × Int :=
  let s : Int := 53 + (bitLen b : Int) - (bitLen a : Int)
  let m := fpDivAux a b s
  if m < 2 ^ 53 then (m, -s) else (fpDivAux a b (s - 1), -(s - 1))

/-- Correctly rounded binary64 product of the double `(m, e)` with the
integer 100: the exact product is rounded back to at most 53 bits. -/
def fpMul100 (m : Nat) (e : Int) : Nat × Int :=
  let p := m * 100
  let drop : Int := (bitLen p : Int) - 53
  if 0 < drop then (rheDiv p (2 ^ drop.toNat), e + drop) else (p, e)

/-- JavaScript `Math.round` of the non-negative double `(m, e)`: the exact
value `m * 2^e` rounded half toward positive infinity.  For `e < 0` with
`k = -e` this is `floor(m / 2^k + 1/2) = (2*m + 2^k) / 2^(k+1)`. -/
def fpRoundHalfUp (m : Nat) (e : Int) : Nat :=
  if 0 ≤ e then m * 2 ^ e.toNat
  else
    let k := (-e).toNat
    (2 * m + 2 ^ k) / 2 ^ (k + 1)

/-- The binary64 evaluation of `Math.round((t / maxPossible) * 100)` for
integers `0 ≤ t ≤ maxPossible`, `maxPossible > 0`, exactly as JavaScript
computes it (division first, then multiplication, each correctly
rounded). -/
def jsNormalize (t maxPossible : Nat) : Nat :=
  if t = 0 then 0
  else
    let d := fpDiv t maxPossible
    let p := fpMul100 d.1 d.2
    fpRoundHalfUp p.1 p.2

/-- Exact rounding `round(num / den)` (half toward positive infinity) of a
ratio of naturals, as the spec's formulas read mathematically. -/
def roundHalfUpDiv (num den : Nat) : Nat := (2 * num + den) / (2 * den)

/-! ## Data model -/

/-- One atomic heuristic measurement.  Scores are natural numbers: the
source only ever produces non-negative integer scores. -/
structure Signal where
  id : String
  label : String
  score : Nat
  notes : String
  deriving Repr, DecidableEq

/-- External reputation profile (`GMBProfile` in the source).  `rating` is
kept in tenths of a star (`ratingTenths`, 4.9 stars = 49) so that the
source's comparisons against 4.5 stay in integers; `lastReviewDate` is an
epoch-millisecond timestamp (the source parses its ISO string with
`new Date(...).getTime()`). -/
structure GMBProfile where
  found : Bool
  ratingTenths : Option Nat
  reviewCount : Option Nat
  lastReviewDate : Option Int
  responseRate : Option Nat
  score : Nat
  deriving Repr, DecidableEq

/-- The outcome of every regex / keyword probe the four signal calculators
run over the page text, title and markup.  Each field is the exact result
the source reads from a match expression; any concrete page maps to one
such record, so properties proved for every record hold for every page. -/
structure PageFeatures where
  /-- `html.match(/(google-reviews|yelp-review|review-widget|reviews-widget)/gi).length` -/
  reviewWidgetCount : Nat
  /-- count of `/\b(review|rating|stars|testimonial|google reviews|yelp)\b/gi` in text -/
  reviewMentionCount : Nat
  /-- any of `recent`, `latest`, `new review`, `just reviewed`, `this month` in text -/
  hasRecentMentions : Bool
  /-- total count over the four credential regex families -/
  credentialMatchCount : Nat
  /-- `/(about|team|staff|credentials|qualifications|our doctor|our team)/i.test(text)` -/
  hasCredentialSection : Bool
  /-- count of social platform domains in html -/
  socialLinkCount : Nat
  /-- count of `/\b(testimonial|client said|customer said|review from)\b/gi` in text -/
  testimonialCount : Nat
  /-- count of `/\b(case study|success story|client story|results)\b/gi` in text -/
  caseStudyCount : Nat
  /-- count of trust-badge markers in html -/
  trustBadgeCount : Nat
  /-- count of security markers in html -/
  securityIndicatorCount : Nat
  /-- count of `/\b(guarantee|money back|satisfaction guaranteed|warranty)\b/gi` in text -/
  guaranteeMentionCount : Nat
  /-- at least five `required` form controls in html -/
  longForms : Bool
  /-- `/(step|page \d|continue|next)/i.test(text)` -/
  multipleSteps : Bool
  /-- NO pricing language in text (the source negates the pricing test) -/
  unclearPricing : Bool
  /-- NO call-to-action language in text (the source negates the CTA test) -/
  noClearCTA : Bool
  /-- an urgency keyword occurs in text or title -/
  intentUrgency : Bool
  /-- a value keyword occurs in text or title -/
  intentValue : Bool
  /-- a social keyword occurs in text or title -/
  intentSocial : Bool
  /-- an action keyword occurs in text or title -/
  intentAction : Bool
  /-- a uniqueness keyword occurs in text -/
  valueUnique : Bool
  /-- a benefit keyword occurs in text -/
  valueBenefit : Bool
  /-- `/\b(\d+%|\$\d+|\d+ years|\d+ clients)\b/.test(text)` -/
  valueSpecific : Bool
  /-- a comparison keyword occurs in text -/
  valueComparison : Bool
  /-- `/(viewport|responsive|mobile|@media)/i.test(html)` -/
  mobileResponsive : Bool
  /-- touch language present and no desktop-only disclaimer -/
  touchFriendly : Bool
  /-- NO `slow`/`loading`/`wait`/`buffering` complaint in text -/
  fastLoad : Bool
  /-- `text.length > 200 && text.length < 5000` -/
  readable : Bool
  /-- booking-system marker in html or text -/
  bookingSystem : Bool
  /-- chatbot / always-available marker in text or html -/
  aiChatbot : Bool
  /-- CRM / portal marker in text -/
  crmIntegration : Bool
  /-- newsletter / email-automation marker in text -/
  emailAutomation : Bool
  /-- payment marker in text -/
  paymentSystem : Bool
  /-- analytics marker in html -/
  trackAnalytics : Bool
  /-- ad-pixel marker in html -/
  trackPixel : Bool
  /-- conversion / goal language in text -/
  trackConversion : Bool
  /-- heatmap / session-recording marker in html -/
  trackHeatmap : Bool
  /-- UTM / attribution marker in html or text -/
  trackAttribution : Bool
  deriving Repr, DecidableEq

/-- Scraped page content as the engine consumes it: the raw `text` and
`title` strings (read by the business-type classifier) and the regex layer
results (`features`) every calculator reads. -/
structure ScrapedContent where
  title : String
  text : String
  url : String
  features : PageFeatures
  deriving Repr, DecidableEq

/-- The five category scores (`CASHScore` in the source). -/
structure CASHScore where
  overall : Nat
  content : Nat
  authority : Nat
  systems : Nat
  hypergrowth : Nat
  deriving Repr, DecidableEq

/-- A prioritized issue derived from a weak signal. -/
structure PriorityIssue where
  id : String
  label : String
  severity : String
  deriving Repr, DecidableEq

/-- A sales offer from the fixed catalog. -/
structure Offer where
  id : String
  label : String
  reason : String
  priority : String
  monetizedLoss : Option Nat
  deriving Repr, DecidableEq

/-- The four signal groups, in the engine's category order. -/
structure SignalGroups where
  content : List Signal
  authority : List Signal
  systems : List Signal
  hypergrowth : List Signal
  deriving Repr, DecidableEq

/-- Full result of `calculateCASHScoreV2`. -/
structure CASHScoreResult where
  scores : CASHScore
  signals : SignalGroups
  priorityIssues : List PriorityIssue
  offers : List Offer
  detectedBusinessType : Option String
  deriving Repr, DecidableEq

/-! ## Constants -/

/-- Business type to per-lead dollar value (`BUSINESS_PROFIT_MULTIPLIERS`),
in the source's insertion order. -/
def BUSINESS_PROFIT_MULTIPLIERS : List (String × Nat) := [
  ("dentist", 200),
  ("dental", 200),
  ("auto repair", 150),
  ("auto shop", 150),
  ("mechanic", 150),
  ("clinic", 180),
  ("medical", 180),
  ("law firm", 300),
  ("lawyer", 300),
  ("attorney", 300),
  ("real estate", 250),
  ("realtor", 250),
  ("property management", 2000),
  ("corporate housing", 2000),
  ("home services", 120),
  ("plumber", 120),
  ("electrician", 120),
  ("hvac", 120),
  ("restaurant", 112),
  ("cafe", 112),
  ("retail", 112),
  ("food", 112)]

/-- Default per-lead value for unidentified clients. -/
def DEFAULT_PER_LEAD_VALUE : Nat := 112

/-- Fixed number of missed calls per month. -/
def MISSED_CALLS_PER_MONTH : Nat := 90

/-! ## Signal calculators -/

/-- Authority/trust signals (1, 2, 3, 9) plus the GMB pass-through signal,
translated line by line from `calculateAuthoritySignals`.  `Math.round` of
`score / 10` is exact in binary64 and equals `(score + 5) / 10`; the
JavaScript truthiness test `gmbProfile?.score ? ... : 0` makes a zero
score fall through to 0. -/
def calculateAuthoritySignals (f : PageFeatures) (gmbProfile : Option GMBProfile) :
    List Signal :=
  let reviewScore :=
    (if 0 < f.reviewWidgetCount then 5 else 0) +
    (if 3 ≤ f.reviewMentionCount then 3 else 0) +
    (if f.hasRecentMentions then 2 else if 0 < f.reviewMentionCount then 1 else 0)
  let signal1 : Signal :=
    { id := "signal_1_review_recency_volume"
      label := "Review Recency & Volume"
      score := min 10 reviewScore
      notes := if 7 ≤ reviewScore then "Strong review presence with recent activity"
        else "Your reviews are old or missing. New customers see this and don\x27t trust you." }
  let credentialScore : Nat :=
    if 5 ≤ f.credentialMatchCount then 9
    else if 3 ≤ f.credentialMatchCount then 7
    else if 1 ≤ f.credentialMatchCount ∧ f.hasCredentialSection then 5
    else if 1 ≤ f.credentialMatchCount then 3
    else 1
  let signal2 : Signal :=
    { id := "signal_2_credential_verification"
      label := "Credential Verification & Display"
      score := credentialScore
      notes := if 7 ≤ credentialScore then "Strong credential display and verification"
        else "Credentials not prominently displayed or verified" }
  let socialProofScore :=
    (if 3 ≤ f.socialLinkCount then 4 else if 1 ≤ f.socialLinkCount then 2 else 0) +
    (if 3 ≤ f.testimonialCount then 4 else if 1 ≤ f.testimonialCount then 2 else 0) +
    (if 1 ≤ f.caseStudyCount then 2 else 0)
  let signal3 : Signal :=
    { id := "signal_3_social_proof_density"
      label := "Social Proof Density"
      score := min 10 socialProofScore
      notes := if 7 ≤ socialProofScore then "High social proof density across multiple channels"
        else "Limited social proof elements detected" }
  let trustBadgeScore :=
    (if 2 ≤ f.trustBadgeCount then 4 else if 1 ≤ f.trustBadgeCount then 2 else 0) +
    (if 2 ≤ f.securityIndicatorCount then 3 else if 1 ≤ f.securityIndicatorCount then 1 else 0) +
    (if 1 ≤ f.guaranteeMentionCount then 3 else 0)
  let signal9 : Signal :=
    { id := "signal_9_trust_badge_presence"
      label := "Trust Badge Presence"
      score := min 10 trustBadgeScore
      notes := if 7 ≤ trustBadgeScore then "Strong trust badges and security indicators"
        else "Missing trust badges and security signals" }
  let gmbScore := match gmbProfile with
    | some g => if g.score ≠ 0 then (g.score + 5) / 10 else 0
    | none => 0
  let gmbNotes := match gmbProfile with
    | some g =>
      if g.found then
        if 9 ≤ gmbScore then "Excellent Google Business Profile detected."
        else if 7 ≤ gmbScore then "Good GMB Profile, but room for optimization."
        else "Weak GMB Profile. Low ratings or activity detected."
      else "GMB Profile not found. Critical Authority Signal Missing."
    | none => "GMB Profile not found. Critical Authority Signal Missing."
  let signalGmb : Signal :=
    { id := "signal_gmb_profile"
      label := "Google Business Profile Health"
      score := gmbScore
      notes := gmbNotes }
  [signal1, signal2, signal3, signal9, signalGmb]

/-- Content/friction/intent signals (4, 5, 7, 8), translated line by line
from `calculateContentSignals`.  Signal 5 accumulates 2.5 points per
intent family; the sum is embedded doubled (`intentHalfScore`, 5 per
family), with `Math.round(x) = (2x + 1) / 2` applied to it (`2.5 * k` is
exact in binary64) and the note threshold `intentScore >= 7` becoming
`14 ≤ intentHalfScore`. -/
def calculateContentSignals (f : PageFeatures) : List Signal :=
  let frictionScorePre : Int := 10 -
    (if f.longForms then 2 else 0) -
    (if f.multipleSteps then 2 else 0) -
    (if f.unclearPricing then 3 else 0) -
    (if f.noClearCTA then 3 else 0)
  let frictionScore := max 1 frictionScorePre
  let signal4 : Signal :=
    { id := "signal_4_conversion_friction"
      label := "Conversion Friction Points"
      score := frictionScore.toNat
      notes := if 7 ≤ frictionScore then "Low friction conversion path detected"
        else "High friction points blocking conversions" }
  let intentHalfScore :=
    ([f.intentUrgency, f.intentValue, f.intentSocial, f.intentAction]).foldl
      (fun sum fam => sum + if fam then 5 else 0) 0
  let signal5 : Signal :=
    { id := "signal_5_intent_signal_strength"
      label := "Intent Signal Strength"
      score := min 10 ((intentHalfScore + 1) / 2)
      notes := if 14 ≤ intentHalfScore then "Strong intent signals throughout content"
        else "Weak intent signals - unclear value proposition" }
  let valuePropScore :=
    (if f.valueUnique then 2 else 0) +
    (if f.valueBenefit then 3 else 0) +
    (if f.valueSpecific then 3 else 0) +
    (if f.valueComparison then 2 else 0)
  let signal7 : Signal :=
    { id := "signal_7_value_proposition_clarity"
      label := "Value Proposition Clarity"
      score := min 10 valuePropScore
      notes := if 7 ≤ valuePropScore then "Clear, specific value proposition"
        else "Vague or generic value proposition" }
  let mobileScore :=
    (if f.mobileResponsive then 4 else 0) +
    (if f.touchFriendly then 2 else 0) +
    (if f.fastLoad then 2 else 0) +
    (if f.readable then 2 else 0)
  let signal8 : Signal :=
    { id := "signal_8_mobile_experience"
      label := "Mobile Experience Quality"
      score := min 10 mobileScore
      notes := if 7 ≤ mobileScore then "Optimized mobile experience detected"
        else "Mobile experience needs improvement" }
  [signal4, signal5, signal7, signal8]

/-- Systems signal (6), translated from `calculateSystemsSignals`. -/
def calculateSystemsSignals (f : PageFeatures) : List Signal :=
  let automationScore :=
    (if f.bookingSystem then 3 else 0) +
    (if f.aiChatbot then 3 else 0) +
    (if f.crmIntegration then 2 else 0) +
    (if f.emailAutomation then 1 else 0) +
    (if f.paymentSystem then 1 else 0)
  [{ id := "signal_6_automation_infrastructure"
     label := "Automation Infrastructure"
     score := min 10 automationScore
     notes := if 7 ≤ automationScore then "Strong automation infrastructure in place"
       else "No instant client connection is possible (only a slow contact form). This is a huge leak in your acquisition system." }]

/-- Hypergrowth signal (10), translated from `calculateHypergrowthSignals`. -/
def calculateHypergrowthSignals (f : PageFeatures) : List Signal :=
  let trackingScore :=
    (if f.trackAnalytics then 3 else 0) +
    (if f.trackPixel then 2 else 0) +
    (if f.trackConversion then 2 else 0) +
    (if f.trackHeatmap then 2 else 0) +
    (if f.trackAttribution then 1 else 0)
  [{ id := "signal_10_growth_attribution"
     label := "Growth Attribution Tracking"
     score := min 10 trackingScore
     notes := if 7 ≤ trackingScore then "Comprehensive growth attribution tracking"
       else "Missing or incomplete growth tracking" }]

/-- Sum of the scores of a signal list (the source's `reduce`). -/
def sumScores (signals : List Signal) : Nat :=
  signals.foldl (fun sum s => sum + s.score) 0

/-- `normalizeCategoryScore`: `Math.round((total / maxPossible) * 100)`
with `maxPossible = signals.length * 10`, evaluated with the binary64
model `jsNormalize` (the computation is inexact in binary64, see the file
header). -/
def normalizeCategoryScore (signals : List Signal) : Nat :=
  if signals.length = 0 then 0
  else jsNormalize (sumScores signals) (signals.length * 10)

/-! ## Business-type classifier -/

/-- The general keyword table of `detectBusinessType`, in the source's
insertion order (`Object.entries` iterates in that order). -/
def typeMapping : List (String × List String) := [
  ("Dentist", ["dentist", "dental", "orthodontist", "oral surgeon"]),
  ("Auto Repair", ["auto repair", "auto shop", "mechanic", "automotive"]),
  ("Clinic", ["clinic", "medical", "healthcare", "physician"]),
  ("Law Firm", ["law firm", "lawyer", "attorney", "legal"]),
  ("Real Estate", ["real estate", "realtor", "realty", "property"]),
  ("Plumber", ["plumber", "plumbing", "pipe"]),
  ("Electrician", ["electrician", "electrical"]),
  ("HVAC", ["hvac", "heating", "cooling", "air conditioning"]),
  ("Restaurant", ["restaurant", "dining", "bistro", "eatery"]),
  ("Cafe", ["cafe", "coffee", "espresso", "bakery"]),
  ("Retail", ["retail", "shop", "store", "boutique"]),
  ("Food", ["food", "menu", "lunch", "dinner"])]

/-- `detectBusinessType`: lowercase the concatenation of text and title,
check the high-value property-management keywords first, then return the
first matching entry of the general table, or nothing. -/
def detectBusinessType (text title : String) : Option String :=
  let combined := jsToLower (text ++ " " ++ title)
  if strContains combined "property management" ||
      strContains combined "corporate housing" ||
      strContains combined "multifamily" then
    some "Property Management"
  else
    (typeMapping.find? (fun p => p.2.any (fun kw => strContains combined kw))).map
      (fun p => p.1)

/-- Modelled from the spec's contract wording for the classifier: a single
priority-ordered table, the high-value property-management entry first,
then the general table. -/
def priorityOrderedTable : List (String × List String) :=
  ("Property Management", ["property management", "corporate housing", "multifamily"]) ::
    typeMapping

/-- Modelled from the spec's contract wording: return the first matching
category of the priority-ordered keyword table under substring containment
on the lowercased concatenation of text and title, or nothing. -/
def detectBusinessTypeSpec (text title : String) : Option String :=
  let combined := jsToLower (text ++ " " ++ title)
  (priorityOrderedTable.find? (fun p => p.2.any (fun kw => strContains combined kw))).map
    (fun p => p.1)

/-! ## Monetized-loss estimator -/

/-- JavaScript `v || d` for a possibly-missing number: `undefined` and `0`
both fall through to the default. -/
def jsOrDefault (v : Option Nat) (d : Nat) : Nat :=
  match v with
  | some n => if n = 0 then d else n
  | none => d

/-- `calculateMonetizedLoss`: no loss when `systemsScore >= 50` and the
automation signal score is at least 5; otherwise 90 missed calls times the
per-lead value of the detected business type (lowercased table key,
default 112). -/
def calculateMonetizedLoss (text title : String) (systemsScore automationScore : Nat) :
    Option Nat :=
  if 50 ≤ systemsScore ∧ 5 ≤ automationScore then none
  else
    let businessType := detectBusinessType text title
    let perLeadValue := match businessType with
      | some bt => jsOrDefault (BUSINESS_PROFIT_MULTIPLIERS.lookup (jsToLower bt))
          DEFAULT_PER_LEAD_VALUE
      | none => DEFAULT_PER_LEAD_VALUE
    some (MISSED_CALLS_PER_MONTH * perLeadValue)

/-- The claim's reading of the per-lead value: the fixed table keyed by
the lowercased detected type, falling back to the default when the type is
unclassified or absent from the table. -/
def perLeadValueSpec (businessType : Option String) : Nat :=
  match businessType with
  | some bt => (BUSINESS_PROFIT_MULTIPLIERS.lookup (jsToLower bt)).getD DEFAULT_PER_LEAD_VALUE
  | none => DEFAULT_PER_LEAD_VALUE

/-! ## Issue ranker -/

/-- `generatePriorityIssues`, translated push by push: for each category
below 50, the first signal scoring below 5 yields one issue labelled with
that signal's notes, severity high below 30 and medium otherwise; the
result is capped at 5. -/
def generatePriorityIssues (scores : CASHScore) (signals : SignalGroups) :
    List PriorityIssue :=
  let issues : List PriorityIssue := []
  let issues := if scores.content < 50 then
      match signals.content.find? (fun s => s.score < 5) with
      | some lowContentSignal => issues ++
          [{ id := "content_" ++ lowContentSignal.id
             label := lowContentSignal.notes
             severity := if scores.content < 30 then "high" else "medium" }]
      | none => issues
    else issues
  let issues := if scores.authority < 50 then
      match signals.authority.find? (fun s => s.score < 5) with
      | some lowAuthoritySignal => issues ++
          [{ id := "authority_" ++ lowAuthoritySignal.id
             label := lowAuthoritySignal.notes
             severity := if scores.authority < 30 then "high" else "medium" }]
      | none => issues
    else issues
  let issues := if scores.systems < 50 then
      match signals.systems.find? (fun s => s.score < 5) with
      | some lowSystemsSignal => issues ++
          [{ id := "systems_" ++ lowSystemsSignal.id
             label := lowSystemsSignal.notes
             severity := if scores.systems < 30 then "high" else "medium" }]
      | none => issues
    else issues
  let issues := if scores.hypergrowth < 50 then
      match signals.hypergrowth.find? (fun s => s.score < 5) with
      | some lowHypergrowthSignal => issues ++
          [{ id := "hypergrowth_" ++ lowHypergrowthSignal.id
             label := lowHypergrowthSignal.notes
             severity := if scores.hypergrowth < 30 then "high" else "medium" }]
      | none => issues
    else issues
  issues.take 5

/-- One category's optional issue, as the spec describes the ranker. -/
def categoryIssueSpec (category : String) (categoryScore : Nat) (sigs : List Signal) :
    Option PriorityIssue :=
  if categoryScore < 50 then
    (sigs.find? (fun s => s.score < 5)).map (fun s =>
      { id := category ++ "_" ++ s.id
        label := s.notes
        severity := if categoryScore < 30 then "high" else "medium" })
  else none

/-- The spec's description of the ranker's output: the four categories'
optional issues in category order. -/
def priorityIssuesSpec (scores : CASHScore) (signals : SignalGroups) :
    List PriorityIssue :=
  ([categoryIssueSpec "content" scores.content signals.content,
    categoryIssueSpec "authority" scores.authority signals.authority,
    categoryIssueSpec "systems" scores.systems signals.systems,
    categoryIssueSpec "hypergrowth" scores.hypergrowth signals.hypergrowth]).filterMap id

/-! ## Offer generator -/

/-- Insert thousands separators (reversed digit list in, reversed
grouped list out), as `Number.prototype.toLocaleString` renders the
monetized loss in the flagship offer's reason text. -/
def commaGroup : List Char → List Char
  | d1 :: d2 :: d3 :: d4 :: rest => d1 :: d2 :: d3 :: ',' :: commaGroup (d4 :: rest)
  | l => l

/-- `n.toLocaleString()` for a natural number in the default US grouping. -/
def toLocaleStringUS (n : Nat) : String :=
  String.mk ((commaGroup (toString n).toList.reverse).reverse)

/-- The authenticity-overhaul catalog entry. -/
def authenticityOverhaulOffer (scores : CASHScore) : Offer :=
  { id := "authenticity_overhaul"
    label := "Authenticity Overhaul Package"
    reason := "ATTENTION: Significant Trust Barriers. We found major Authenticity Gaps that cause customers to choose a competitor. Solution: Comprehensive rebuild of reviews, credentials, and trust signals."
    priority := if scores.authority < 40 then "high" else "medium"
    monetizedLoss := none }

/-- The review-management catalog entry. -/
def reviewManagementOffer (scores : CASHScore) : Offer :=
  { id := "review_management"
    label := "Review Management System"
    reason := "FIX: We provide a 5-Star Review Machine to instantly fix your trust problem and outrank competitors."
    priority := if scores.authority < 40 then "high" else "medium"
    monetizedLoss := none }

/-- The reputation-resurrection catalog entry. -/
def reputationResurrectionOffer : Offer :=
  { id := "reputation_resurrection"
    label := "Reputation Resurrection"
    reason := "CRITICAL: Your Google Reputation is hurting you. < 4.5 Stars or low reviews means customers ignore you. We install an automated system to get 5-star reviews on autopilot."
    priority := "high"
    monetizedLoss := none }

/-- The local-dominance catalog entry, not-found wording. -/
def localDominanceNotFound : Offer :=
  { id := "local_dominance"
    label := "Local Dominance Pack"
    reason := "INVISIBLE: We cannot find your Google Business Profile. You are invisible to local customers. We will claim, verify, and rank your profile #1."
    priority := "high"
    monetizedLoss := none }

/-- The local-dominance catalog entry, weak-profile wording. -/
def localDominanceWeak : Offer :=
  { id := "local_dominance"
    label := "Local Dominance Pack"
    reason := "WEAK PRESENCE: Your Google Profile is unoptimized and losing traffic. We optimize photos, posts, and categories to dominate the Map Pack."
    priority := "high"
    monetizedLoss := none }

/-- Reason text of the flagship offer when no dollar figure applies. -/
def aiReceptionistPlainReason : String :=
  "URGENT: Your Phone Is Losing You Money. No online booking system detected. Our AI receptionist handles calls and bookings 24/7."

/-- Reason text of the flagship offer carrying the dollar figure. -/
def aiReceptionistLossReason (loss : Nat) : String :=
  "URGENT: Your Phone Is Losing You $" ++ toLocaleStringUS loss ++
    "/month. No online booking system detected. Our AI receptionist handles calls and bookings 24/7."

/-- The flagship 24/7 AI-receptionist catalog entry.  The source selects
the reason with the truthiness test `monetizedLoss ? ... : ...`, so a zero
loss (never produced, but modelled faithfully) would take the plain
wording. -/
def aiReceptionistOffer (scores : CASHScore) (monetizedLoss : Option Nat) : Offer :=
  { id := "ai_receptionist"
    label := "24/7 AI Receptionist"
    reason := match monetizedLoss with
      | some n => if n = 0 then aiReceptionistPlainReason else aiReceptionistLossReason n
      | none => aiReceptionistPlainReason
    priority := if scores.systems < 40 then "high" else "medium"
    monetizedLoss := monetizedLoss }

/-- The scalability-architecture catalog entry. -/
def scalabilityArchitectureOffer (scores : CASHScore) : Offer :=
  { id := "scalability_architecture"
    label := "Scalability Architecture Package"
    reason := "STOP THE LEAKS: You Cannot Handle Growth. Your current system is manual, slow, and drops qualified leads. Solution: Complete automation setup, instant follow-up, and growth tracking."
    priority := if scores.systems < 40 ∨ scores.hypergrowth < 40 then "high" else "medium"
    monetizedLoss := none }

/-- First rule block of `generateOffers`: the authenticity overhaul,
appended when authority is below 70 and at least two of the four on-page
trust signals score below 5. -/
def trustOffersBlock (scores : CASHScore) (signals : SignalGroups) : List Offer :=
  let trustSignals :=
    ([signals.authority.find? (fun s => s.id == "signal_1_review_recency_volume"),
      signals.authority.find? (fun s => s.id == "signal_2_credential_verification"),
      signals.authority.find? (fun s => s.id == "signal_3_social_proof_density"),
      signals.authority.find? (fun s => s.id == "signal_9_trust_badge_presence")]).filterMap id
  let lowTrustSignals := trustSignals.filter (fun s => s.score < 5)
  if scores.authority < 70 ∧ 2 ≤ lowTrustSignals.length then
    [authenticityOverhaulOffer scores]
  else []

/-- Second rule block of `generateOffers`: the review-management offer,
appended when authority is below 70 and the review-recency signal scores
below 5 (the source also guards on the signal existing). -/
def reviewOffersBlock (scores : CASHScore) (signals : SignalGroups) : List Offer :=
  match signals.authority.find? (fun s => s.id == "signal_1_review_recency_volume") with
  | some reviewSignal =>
    if scores.authority < 70 ∧ reviewSignal.score < 5 then [reviewManagementOffer scores]
    else []
  | none => []

/-- GMB rule block of `generateOffers`.  `(gmbProfile.rating || 0) < 4.5`
and `(gmbProfile.reviewCount || 0) < 40` treat a missing field as 0; the
recency test divides the millisecond age by 86400000 and compares against
90 days, which for millisecond timestamps is the integer comparison
`90 * 86400000 < now - d`.  With no profile the not-found local-dominance
offer is always appended. -/
def gmbOffersBlock (gmbProfile : Option GMBProfile) (now : Int) : List Offer :=
  match gmbProfile with
  | some g =>
    let isLowRating : Bool := g.ratingTenths.getD 0 < 45
    let isLowVolume : Bool := g.reviewCount.getD 0 < 40
    let isOldReviews : Bool := match g.lastReviewDate with
      | some d => decide ((90 * 86400000 : Int) < now - d)
      | none => false
    (if g.found && (isLowRating || isLowVolume || isOldReviews) then
      [reputationResurrectionOffer]
    else []) ++
    (if !g.found || g.score < 50 then
      [if !g.found then localDominanceNotFound else localDominanceWeak]
    else [])
  | none => [localDominanceNotFound]

/-- Systems/hypergrowth rule block of `generateOffers`: flagship AI
receptionist (carrying the monetized loss) when the automation signal is
low, plus the scalability package when both signals are low or either
category is below 50.  `automationSignal?.score || 0` is the signal's
score, defaulting to 0 when the signal is missing. -/
def systemsOffersBlock (scores : CASHScore) (signals : SignalGroups)
    (content : ScrapedContent) : List Offer :=
  let automationSignal :=
    signals.systems.find? (fun s => s.id == "signal_6_automation_infrastructure")
  let trackingSignal :=
    signals.hypergrowth.find? (fun s => s.id == "signal_10_growth_attribution")
  if scores.systems < 70 ∨ scores.hypergrowth < 70 then
    let hasLowAutomation : Bool := match automationSignal with
      | some s => decide (s.score < 5)
      | none => false
    let hasLowTracking : Bool := match trackingSignal with
      | some s => decide (s.score < 5)
      | none => false
    if hasLowAutomation || hasLowTracking then
      let monetizedLoss := calculateMonetizedLoss content.text content.title scores.systems
        (match automationSignal with | some s => s.score | none => 0)
      (if hasLowAutomation then [aiReceptionistOffer scores monetizedLoss] else []) ++
      (if (hasLowAutomation && hasLowTracking) = true ∨ scores.systems < 50 ∨
          scores.hypergrowth < 50 then
        [scalabilityArchitectureOffer scores]
      else [])
    else []
  else []

/-- `generateOffers`: the rule blocks run in the source's order, each
appending to the offer list; the result is capped at 4.  The
`detectedBusinessType` argument exists in the source's signature but its
body re-detects the type inside `calculateMonetizedLoss`. -/
def generateOffers (scores : CASHScore) (signals : SignalGroups)
    (content : ScrapedContent) (detectedBusinessType : Option String)
    (gmbProfile : Option GMBProfile) (now : Int) : List Offer :=
  (trustOffersBlock scores signals ++ reviewOffersBlock scores signals ++
    gmbOffersBlock gmbProfile now ++ systemsOffersBlock scores signals content).take 4

/-! ## Entry point -/

/-- `calculateCASHScoreV2`.  `Math.round((onPage*0.5)+(gmb*0.5))` and
`Math.round(0.25*(c+a+s+h))` are exact in binary64 for the integer scores
involved and equal `(onPage+gmb+1)/2` and `(c+a+s+h+2)/4`;
`gmbProfile?.score || 0` is the profile score or 0.  `now` stands for the
`Date.now()` clock reading the offer generator performs. -/
def calculateCASHScoreV2 (content : ScrapedContent) (gmbProfile : Option GMBProfile)
    (now : Int) : CASHScoreResult :=
  let f := content.features
  let detectedBusinessType := detectBusinessType content.text content.title
  let authoritySignals := calculateAuthoritySignals f gmbProfile
  let contentSignals := calculateContentSignals f
  let systemsSignals := calculateSystemsSignals f
  let hypergrowthSignals := calculateHypergrowthSignals f
  let contentScore := normalizeCategoryScore contentSignals
  let onPageAuthoritySignals := authoritySignals.filter (fun s => s.id != "signal_gmb_profile")
  let onPageAuthorityScore := normalizeCategoryScore onPageAuthoritySignals
  let gmbScore := match gmbProfile with | some g => g.score | none => 0
  let authorityScore := (onPageAuthorityScore + gmbScore + 1) / 2
  let systemsScore := normalizeCategoryScore systemsSignals
  let hypergrowthScore := normalizeCategoryScore hypergrowthSignals
  let overall := (contentScore + authorityScore + systemsScore + hypergrowthScore + 2) / 4
  let scores : CASHScore :=
    { overall := overall
      content := contentScore
      authority := authorityScore
      systems := systemsScore
      hypergrowth := hypergrowthScore }
  let signals : SignalGroups :=
    { content := contentSignals
      authority := authoritySignals
      systems := systemsSignals
      hypergrowth := hypergrowthSignals }
  { scores := scores
    signals := signals
    priorityIssues := generatePriorityIssues scores signals
    offers := generateOffers scores signals content detectedBusinessType gmbProfile now
    detectedBusinessType := detectedBusinessType }

/-! ## Arithmetic and list helper lemmas -/

/-- Exact half-up rounding of `x / 2` in integer form. -/
theorem roundHalfUpDiv_two (x : Nat) : roundHalfUpDiv x 2 = (x + 1) / 2 := by
  unfold roundHalfUpDiv
  rw [show 2 * x + 2 = 2 * (x + 1) by ring, show (2 * 2 : Nat) = 2 * 2 from rfl,
    Nat.mul_div_mul_left _ 2 (by norm_num)]

/-- Exact half-up rounding of `x / 4` in integer form. -/
theorem roundHalfUpDiv_four (x : Nat) : roundHalfUpDiv x 4 = (x + 2) / 4 := by
  unfold roundHalfUpDiv
  rw [show 2 * x + 4 = 2 * (x + 2) by ring, show (2 * 4 : Nat) = 2 * 4 from rfl,
    Nat.mul_div_mul_left _ 4 (by norm_num)]

/-- Shifting the accumulator out of the score-summing fold. -/
theorem sumScores_foldl_shift (l : List Signal) :
    ∀ a : Nat, l.foldl (fun sum s => sum + s.score) a =
      a + l.foldl (fun sum s => sum + s.score) 0 := by
  induction l with
  | nil => intro a; simp
  | cons s t ih =>
    intro a
    simp only [List.foldl_cons]
    rw [ih (a + s.score), ih (0 + s.score)]
    omega

/-- The score sum of a cons cell. -/
theorem sumScores_cons (s : Signal) (l : List Signal) :
    sumScores (s :: l) = s.score + sumScores l := by
  unfold sumScores
  simp only [List.foldl_cons]
  rw [sumScores_foldl_shift l (0 + s.score)]
  omega

/-- A list whose signals all score at most 10 sums to at most 10 per
signal. -/
theorem sumScores_le (l : List Signal) (h : ∀ s ∈ l, s.score ≤ 10) :
    sumScores l ≤ 10 * l.length := by
  induction l with
  | nil => simp [sumScores]
  | cons s t ih =>
    rw [sumScores_cons]
    have hs := h s (List.mem_cons_self s t)
    have ht := ih (fun x hx => h x (List.mem_cons_of_mem s hx))
    simp only [List.length_cons]
    omega

set_option maxRecDepth 40000 in
/-- The binary64 evaluation of `Math.round((t/m)*100)` stays at most 100
whenever `t ≤ m ≤ 50` (every category has at most five signals, so
`maxPossible ≤ 50`). -/
theorem jsNormalize_le_100 : ∀ m ≤ 50, ∀ t ≤ m, jsNormalize t m ≤ 100 := by decide

/-- Any category built from at most five signals scoring at most 10 each
normalizes to at most 100. -/
theorem normalizeCategoryScore_le_100 (l : List Signal) (hlen : l.length ≤ 5)
    (h : ∀ s ∈ l, s.score ≤ 10) : normalizeCategoryScore l ≤ 100 := by
  unfold normalizeCategoryScore
  split_ifs with h0
  · omega
  · exact jsNormalize_le_100 (l.length * 10) (by omega) (sumScores l)
      ((sumScores_le l h).trans (by omega))

/-- An element heading the third segment, after two segments of length at
most 1, survives truncation to 4. -/
theorem mem_take_head2 {α : Type} (a b t rest : List α) (x : α)
    (ha : a.length ≤ 1) (hb : b.length ≤ 1) :
    x ∈ (((a ++ b) ++ (x :: t)) ++ rest).take 4 := by
  match a, ha with
  | [], _ =>
    match b, hb with
    | [], _ => simp [List.take_succ_cons]
    | [y], _ => simp [List.take_succ_cons]
  | [y], _ =>
    match b, hb with
    | [], _ => simp [List.take_succ_cons]
    | [z], _ => simp [List.take_succ_cons]

/-- An element heading the fourth segment, after three segments of length
at most 1, survives truncation to 4. -/
theorem mem_take_head3 {α : Type} (a b c t rest : List α) (x : α)
    (ha : a.length ≤ 1) (hb : b.length ≤ 1) (hc : c.length ≤ 1) :
    x ∈ (((a ++ b) ++ c) ++ ((x :: t) ++ rest)).take 4 := by
  match a, ha with
  | [], _ =>
    match b, hb with
    | [], _ =>
      match c, hc with
      | [], _ => simp [List.take_succ_cons]
      | [w], _ => simp [List.take_succ_cons]
    | [y], _ =>
      match c, hc with
      | [], _ => simp [List.take_succ_cons]
      | [w], _ => simp [List.take_succ_cons]
  | [y], _ =>
    match b, hb with
    | [], _ =>
      match c, hc with
      | [], _ => simp [List.take_succ_cons]
      | [w], _ => simp [List.take_succ_cons]
    | [z], _ =>
      match c, hc with
      | [], _ => simp [List.take_succ_cons]
      | [w], _ => simp [List.take_succ_cons]

/-- The names `detectBusinessType` can return. -/
def businessTypeNames : List String :=
  ["Property Management", "Dentist", "Auto Repair", "Clinic", "Law Firm", "Real Estate",
   "Plumber", "Electrician", "HVAC", "Restaurant", "Cafe", "Retail", "Food"]

/-- Every classified business type is one of the thirteen table names. -/
theorem detectBusinessType_mem (text title bt : String)
    (h : detectBusinessType text title = some bt) : bt ∈ businessTypeNames := by
  simp only [detectBusinessType] at h
  split at h
  · simp only [Option.some.injEq] at h
    subst h
    simp [businessTypeNames]
  · simp only [Option.map_eq_some'] at h
    obtain ⟨p, hp, hbt⟩ := h
    have hmem := List.mem_of_find?_eq_some hp
    subst hbt
    simp only [typeMapping, List.mem_cons, List.not_mem_nil, or_false] at hmem
    rcases hmem with rfl | rfl | rfl | rfl | rfl | rfl | rfl | rfl | rfl | rfl | rfl | rfl <;>
      simp [businessTypeNames]

/-! ## Claim theorems -/

/-- C1: the monetized loss is absent exactly when `systemsScore >= 50` and
the automation signal score is at least 5; otherwise it equals 90 times
the per-lead value looked up from the fixed business-type table keyed by
the lowercased detected type, defaulting to 112 when the type is
unclassified or absent from the table. -/
theorem monetizedLoss_absent_iff_and_value (text title : String)
    (systemsScore automationScore : Nat) :
    (calculateMonetizedLoss text title systemsScore automationScore = none ↔
      50 ≤ systemsScore ∧ 5 ≤ automationScore) ∧
    (¬(50 ≤ systemsScore ∧ 5 ≤ automationScore) →
      calculateMonetizedLoss text title systemsScore automationScore =
        some (MISSED_CALLS_PER_MONTH * perLeadValueSpec (detectBusinessType text title))) := by
  constructor
  · unfold calculateMonetizedLoss
    split_ifs with h
    · simp [h]
    · simp [h]
  · intro h
    unfold calculateMonetizedLoss
    rw [if_neg h]
    unfold perLeadValueSpec
    cases hd : detectBusinessType text title with
    | none => rfl
    | some bt =>
      have hmem := detectBusinessType_mem text title bt hd
      simp only [businessTypeNames, List.mem_cons, List.not_mem_nil, or_false] at hmem
      rcases hmem with rfl | rfl | rfl | rfl | rfl | rfl | rfl | rfl | rfl | rfl | rfl | rfl | rfl <;>
        rfl

/-- C1 witness: an input classified as a dentist with a zero systems score
receives the 90-missed-calls loss at the dentist per-lead value. -/
theorem monetizedLoss_absent_iff_and_value_witness :
    ¬(50 ≤ 0 ∧ 5 ≤ (0 : Nat)) ∧
    calculateMonetizedLoss "dentist office" "" 0 0 =
      some (MISSED_CALLS_PER_MONTH * perLeadValueSpec (detectBusinessType "dentist office" "")) :=
  ⟨by decide, (monetizedLoss_absent_iff_and_value "dentist office" "" 0 0).2 (by decide)⟩

/-- C9: the business-type classifier agrees with the spec's contract (the
first matching entry of the priority-ordered table, the high-value
property-management entry checked before the general table, substring
containment on the lowercased concatenation, nothing when no keyword
matches), and reclassifying the same input yields the same type. -/
theorem detectBusinessType_firstMatch_and_idempotent (text title : String) :
    detectBusinessType text title = detectBusinessTypeSpec text title ∧
    detectBusinessType text title = detectBusinessType text title := by
  refine ⟨?_, rfl⟩
  simp only [detectBusinessType, detectBusinessTypeSpec, priorityOrderedTable]
  generalize jsToLower (text ++ " " ++ title) = c
  cases h1 : strContains c "property management" <;>
    cases h2 : strContains c "corporate housing" <;>
      cases h3 : strContains c "multifamily" <;>
        simp [List.find?, h1, h2, h3, List.any]

/-- C8: the priority-issue list is exactly the spec construction — for
each category scoring below 50, at most one issue from the first
constituent signal scoring below 5, labelled with that signal's notes,
severity high below 30 and medium otherwise, nothing from healthy
categories — and it never exceeds 5 entries (one per category at most, by
the construction's shape). -/
theorem generatePriorityIssues_spec_and_bound (scores : CASHScore) (signals : SignalGroups) :
    generatePriorityIssues scores signals = priorityIssuesSpec scores signals ∧
    (generatePriorityIssues scores signals).length ≤ 5 := by
  constructor
  · unfold generatePriorityIssues priorityIssuesSpec categoryIssueSpec
    by_cases hc : scores.content < 50 <;>
      by_cases ha : scores.authority < 50 <;>
        by_cases hs : scores.systems < 50 <;>
          by_cases hh : scores.hypergrowth < 50 <;>
            rcases h1 : signals.content.find? (fun s => decide (s.score < 5)) with _ | s1 <;>
              rcases h2 : signals.authority.find? (fun s => decide (s.score < 5)) with _ | s2 <;>
                rcases h3 : signals.systems.find? (fun s => decide (s.score < 5)) with _ | s3 <;>
                  rcases h4 : signals.hypergrowth.find? (fun s => decide (s.score < 5)) with _ | s4 <;>
                    simp [hc, ha, hs, hh, h1, h2, h3, h4, List.take_succ_cons]
  · unfold generatePriorityIssues
    exact List.length_take_le 5 _

/-- Validity of the optional reputation profile: its 0–100 score field is
within range. -/
def profileScoreOK : Option GMBProfile → Bool
  | some g => decide (g.score ≤ 100)
  | none => true

/-- Every authority signal (the four on-page ones and the reputation
pass-through) scores at most 10 for a profile with an in-range score. -/
theorem authoritySignals_score_le (f : PageFeatures) (p : Option GMBProfile)
    (hp : profileScoreOK p = true) :
    ∀ s ∈ calculateAuthoritySignals f p, s.score ≤ 10 := by
  intro s hs
  simp only [calculateAuthoritySignals, List.mem_cons, List.not_mem_nil, or_false] at hs
  rcases hs with rfl | rfl | rfl | rfl | rfl
  · exact Nat.min_le_left _ _
  · simp only
    split_ifs <;> norm_num
  · exact Nat.min_le_left _ _
  · exact Nat.min_le_left _ _
  · simp only
    cases p with
    | none => norm_num
    | some g =>
      simp only [profileScoreOK, decide_eq_true_eq] at hp
      show (if g.score ≠ 0 then (g.score + 5) / 10 else 0) ≤ 10
      split_ifs
      · calc (g.score + 5) / 10 ≤ 105 / 10 := Nat.div_le_div_right (by omega)
          _ ≤ 10 := by norm_num
      · norm_num

/-- Every content signal scores at most 10. -/
theorem contentSignals_score_le (f : PageFeatures) :
    ∀ s ∈ calculateContentSignals f, s.score ≤ 10 := by
  intro s hs
  simp only [calculateContentSignals, List.mem_cons, List.not_mem_nil, or_false] at hs
  rcases hs with rfl | rfl | rfl | rfl
  · simp only
    split_ifs <;> simp
  · exact Nat.min_le_left _ _
  · exact Nat.min_le_left _ _
  · exact Nat.min_le_left _ _

/-- The automation signal scores at most 10. -/
theorem systemsSignals_score_le (f : PageFeatures) :
    ∀ s ∈ calculateSystemsSignals f, s.score ≤ 10 := by
  intro s hs
  simp only [calculateSystemsSignals, List.mem_cons, List.not_mem_nil, or_false] at hs
  subst hs
  exact Nat.min_le_left _ _

/-- The tracking signal scores at most 10. -/
theorem hypergrowthSignals_score_le (f : PageFeatures) :
    ∀ s ∈ calculateHypergrowthSignals f, s.score ≤ 10 := by
  intro s hs
  simp only [calculateHypergrowthSignals, List.mem_cons, List.not_mem_nil, or_false] at hs
  subst hs
  exact Nat.min_le_left _ _

/-- C4: every signal emitted by every calculator — the four on-page
authority signals, the reputation pass-through, the four content signals,
the automation signal and the tracking signal — carries an integer score
(a natural number in this embedding) between 0 and 10, for every input and
every optional profile whose score field is in 0–100. -/
theorem all_signal_scores_in_range (f : PageFeatures) (p : Option GMBProfile)
    (hp : profileScoreOK p = true) :
    (∀ s ∈ calculateAuthoritySignals f p, 0 ≤ s.score ∧ s.score ≤ 10) ∧
    (∀ s ∈ calculateContentSignals f, 0 ≤ s.score ∧ s.score ≤ 10) ∧
    (∀ s ∈ calculateSystemsSignals f, 0 ≤ s.score ∧ s.score ≤ 10) ∧
    (∀ s ∈ calculateHypergrowthSignals f, 0 ≤ s.score ∧ s.score ≤ 10) :=
  ⟨fun s hs => ⟨Nat.zero_le _, authoritySignals_score_le f p hp s hs⟩,
   fun s hs => ⟨Nat.zero_le _, contentSignals_score_le f s hs⟩,
   fun s hs => ⟨Nat.zero_le _, systemsSignals_score_le f s hs⟩,
   fun s hs => ⟨Nat.zero_le _, hypergrowthSignals_score_le f s hs⟩⟩

/-- A concrete page-feature record with every probe negative, for use in
witnesses and counterexamples. -/
def emptyFeatures : PageFeatures :=
  { reviewWidgetCount := 0
    reviewMentionCount := 0
    hasRecentMentions := false
    credentialMatchCount := 0
    hasCredentialSection := false
    socialLinkCount := 0
    testimonialCount := 0
    caseStudyCount := 0
    trustBadgeCount := 0
    securityIndicatorCount := 0
    guaranteeMentionCount := 0
    longForms := false
    multipleSteps := false
    unclearPricing := false
    noClearCTA := false
    intentUrgency := false
    intentValue := false
    intentSocial := false
    intentAction := false
    valueUnique := false
    valueBenefit := false
    valueSpecific := false
    valueComparison := false
    mobileResponsive := false
    touchFriendly := false
    fastLoad := false
    readable := false
    bookingSystem := false
    aiChatbot := false
    crmIntegration := false
    emailAutomation := false
    paymentSystem := false
    trackAnalytics := false
    trackPixel := false
    trackConversion := false
    trackHeatmap := false
    trackAttribution := false }

/-- A concrete found reputation profile with an in-range score. -/
def sampleProfile : GMBProfile :=
  { found := true
    ratingTenths := some 42
    reviewCount := some 25
    lastReviewDate := some 1700000000000
    responseRate := some 20
    score := 55 }

/-- C4 witness: the bounds at a concrete feature record and profile. -/
theorem all_signal_scores_in_range_witness :
    (∀ s ∈ calculateAuthoritySignals emptyFeatures (some sampleProfile),
      0 ≤ s.score ∧ s.score ≤ 10) ∧
    (∀ s ∈ calculateContentSignals emptyFeatures, 0 ≤ s.score ∧ s.score ≤ 10) ∧
    (∀ s ∈ calculateSystemsSignals emptyFeatures, 0 ≤ s.score ∧ s.score ≤ 10) ∧
    (∀ s ∈ calculateHypergrowthSignals emptyFeatures, 0 ≤ s.score ∧ s.score ≤ 10) :=
  all_signal_scores_in_range emptyFeatures (some sampleProfile) (by decide)

/-- The normalized on-page authority score is at most 100. -/
theorem onPage_score_le (f : PageFeatures) (p : Option GMBProfile)
    (hp : profileScoreOK p = true) :
    normalizeCategoryScore ((calculateAuthoritySignals f p).filter
      (fun s => s.id != "signal_gmb_profile")) ≤ 100 := by
  apply normalizeCategoryScore_le_100
  · calc ((calculateAuthoritySignals f p).filter
        (fun s => s.id != "signal_gmb_profile")).length
        ≤ (calculateAuthoritySignals f p).length := List.length_filter_le _ _
      _ ≤ 5 := by simp [calculateAuthoritySignals]
  · intro s hs
    exact authoritySignals_score_le f p hp s (List.mem_of_mem_filter hs)

/-- The 50/50 blend of two scores at most 100 is at most 100. -/
theorem half_blend_le (a b : Nat) (ha : a ≤ 100) (hb : b ≤ 100) : (a + b + 1) / 2 ≤ 100 := by
  calc (a + b + 1) / 2 ≤ 201 / 2 := Nat.div_le_div_right (by omega)
    _ ≤ 100 := by norm_num

/-- A concrete scraped-content value with empty text and all probes
negative, for use in witnesses. -/
def sampleContent : ScrapedContent :=
  { title := "", text := "", url := "", features := emptyFeatures }

/-- C2: the authority category score is the half-up rounding of the mean
of the normalized on-page authority signals (the reputation pass-through
excluded from the normalization) and the reputation profile score, the
latter 0 when no profile is supplied; in particular with no profile the
authority score is the rounding of half the on-page score. -/
theorem authority_blend (content : ScrapedContent) (gmbProfile : Option GMBProfile)
    (now : Int) :
    (calculateCASHScoreV2 content gmbProfile now).scores.authority =
      roundHalfUpDiv
        (normalizeCategoryScore
          ((calculateCASHScoreV2 content gmbProfile now).signals.authority.filter
            (fun s => s.id != "signal_gmb_profile")) +
          (gmbProfile.map (fun g => g.score)).getD 0) 2 ∧
    (gmbProfile = none →
      (calculateCASHScoreV2 content gmbProfile now).scores.authority =
        roundHalfUpDiv
          (normalizeCategoryScore
            ((calculateCASHScoreV2 content gmbProfile now).signals.authority.filter
              (fun s => s.id != "signal_gmb_profile"))) 2) := by
  constructor
  · rw [roundHalfUpDiv_two]
    cases gmbProfile with
    | none => rfl
    | some g => rfl
  · rintro rfl
    rw [roundHalfUpDiv_two]
    rfl

/-- C2 witness: the blend at a concrete input with no profile. -/
theorem authority_blend_witness :
    (calculateCASHScoreV2 sampleContent none 0).scores.authority =
      roundHalfUpDiv
        (normalizeCategoryScore
          ((calculateCASHScoreV2 sampleContent none 0).signals.authority.filter
            (fun s => s.id != "signal_gmb_profile"))) 2 :=
  (authority_blend sampleContent none 0).2 rfl

/-- C3 (amended): all four category scores lie in [0, 100] (scores are
naturals, so 0 is automatic); the content, systems and hypergrowth
category scores equal the binary64 evaluation of
`round(100 x sum / (10 x count))` — which at 4 signals summing to 23
yields 57 where the exact rounding yields 58 — and the overall score is
exactly the half-up rounded mean of the four category scores. -/
theorem category_scores_bounds_and_overall (content : ScrapedContent)
    (gmbProfile : Option GMBProfile) (now : Int)
    (hp : profileScoreOK gmbProfile = true) :
    ((calculateCASHScoreV2 content gmbProfile now).scores.content ≤ 100 ∧
     (calculateCASHScoreV2 content gmbProfile now).scores.authority ≤ 100 ∧
     (calculateCASHScoreV2 content gmbProfile now).scores.systems ≤ 100 ∧
     (calculateCASHScoreV2 content gmbProfile now).scores.hypergrowth ≤ 100) ∧
    ((calculateCASHScoreV2 content gmbProfile now).scores.content =
      jsNormalize (sumScores (calculateCASHScoreV2 content gmbProfile now).signals.content)
        (10 * (calculateCASHScoreV2 content gmbProfile now).signals.content.length) ∧
     (calculateCASHScoreV2 content gmbProfile now).scores.systems =
      jsNormalize (sumScores (calculateCASHScoreV2 content gmbProfile now).signals.systems)
        (10 * (calculateCASHScoreV2 content gmbProfile now).signals.systems.length) ∧
     (calculateCASHScoreV2 content gmbProfile now).scores.hypergrowth =
      jsNormalize (sumScores (calculateCASHScoreV2 content gmbProfile now).signals.hypergrowth)
        (10 * (calculateCASHScoreV2 content gmbProfile now).signals.hypergrowth.length)) ∧
    (calculateCASHScoreV2 content gmbProfile now).scores.overall =
      roundHalfUpDiv ((calculateCASHScoreV2 content gmbProfile now).scores.content +
        (calculateCASHScoreV2 content gmbProfile now).scores.authority +
        (calculateCASHScoreV2 content gmbProfile now).scores.systems +
        (calculateCASHScoreV2 content gmbProfile now).scores.hypergrowth) 4 := by
  refine ⟨⟨?_, ?_, ?_, ?_⟩, ⟨rfl, rfl, rfl⟩, ?_⟩
  · show normalizeCategoryScore (calculateContentSignals content.features) ≤ 100
    exact normalizeCategoryScore_le_100 _ (by simp [calculateContentSignals])
      (contentSignals_score_le content.features)
  · cases gmbProfile with
    | none =>
      show (normalizeCategoryScore
          ((calculateAuthoritySignals content.features none).filter
            (fun s => s.id != "signal_gmb_profile")) + 0 + 1) / 2 ≤ 100
      refine half_blend_le _ 0 (onPage_score_le content.features none hp) ?_
      norm_num
    | some g =>
      show (normalizeCategoryScore
          ((calculateAuthoritySignals content.features (some g)).filter
            (fun s => s.id != "signal_gmb_profile")) + g.score + 1) / 2 ≤ 100
      refine half_blend_le _ _ (onPage_score_le content.features (some g) hp) ?_
      simp only [profileScoreOK, decide_eq_true_eq] at hp
      exact hp
  · show normalizeCategoryScore (calculateSystemsSignals content.features) ≤ 100
    exact normalizeCategoryScore_le_100 _ (by simp [calculateSystemsSignals])
      (systemsSignals_score_le content.features)
  · show normalizeCategoryScore (calculateHypergrowthSignals content.features) ≤ 100
    exact normalizeCategoryScore_le_100 _ (by simp [calculateHypergrowthSignals])
      (hypergrowthSignals_score_le content.features)
  · rw [roundHalfUpDiv_four]
    rfl

/-- C3 witness: the bounds and formulas at a concrete input and profile. -/
theorem category_scores_bounds_and_overall_witness :
    ((calculateCASHScoreV2 sampleContent (some sampleProfile) 0).scores.content ≤ 100 ∧
     (calculateCASHScoreV2 sampleContent (some sampleProfile) 0).scores.authority ≤ 100 ∧
     (calculateCASHScoreV2 sampleContent (some sampleProfile) 0).scores.systems ≤ 100 ∧
     (calculateCASHScoreV2 sampleContent (some sampleProfile) 0).scores.hypergrowth ≤ 100) ∧
    ((calculateCASHScoreV2 sampleContent (some sampleProfile) 0).scores.content =
      jsNormalize
        (sumScores (calculateCASHScoreV2 sampleContent (some sampleProfile) 0).signals.content)
        (10 * (calculateCASHScoreV2 sampleContent (some sampleProfile) 0).signals.content.length) ∧
     (calculateCASHScoreV2 sampleContent (some sampleProfile) 0).scores.systems =
      jsNormalize
        (sumScores (calculateCASHScoreV2 sampleContent (some sampleProfile) 0).signals.systems)
        (10 * (calculateCASHScoreV2 sampleContent (some sampleProfile) 0).signals.systems.length) ∧
     (calculateCASHScoreV2 sampleContent (some sampleProfile) 0).scores.hypergrowth =
      jsNormalize
        (sumScores
          (calculateCASHScoreV2 sampleContent (some sampleProfile) 0).signals.hypergrowth)
        (10 *
          (calculateCASHScoreV2 sampleContent (some sampleProfile) 0).signals.hypergrowth.length)) ∧
    (calculateCASHScoreV2 sampleContent (some sampleProfile) 0).scores.overall =
      roundHalfUpDiv
        ((calculateCASHScoreV2 sampleContent (some sampleProfile) 0).scores.content +
          (calculateCASHScoreV2 sampleContent (some sampleProfile) 0).scores.authority +
          (calculateCASHScoreV2 sampleContent (some sampleProfile) 0).scores.systems +
          (calculateCASHScoreV2 sampleContent (some sampleProfile) 0).scores.hypergrowth) 4 :=
  category_scores_bounds_and_overall sampleContent (some sampleProfile) 0 (by decide)

/-- Feature record whose four content signals score 8, 3, 6 and 6 (sum
23): one friction penalty, one intent family, benefit plus numeric
specificity, responsive plus touch-friendly markup. -/
def roundingGapFeatures : PageFeatures :=
  { emptyFeatures with
    multipleSteps := true
    intentUrgency := true
    valueBenefit := true
    valueSpecific := true
    mobileResponsive := true
    touchFriendly := true }

/-- Concrete content witnessing the binary64 rounding gap. -/
def roundingGapContent : ScrapedContent :=
  { title := "", text := "", url := "", features := roundingGapFeatures }

/-- C3 counterexample: at four content signals summing to 23 the engine
produces a content category score of 57, while the claim's exact formula
`round(100 x 23 / 40)` equals 58 — the code computes the expression in
binary64, where `(23/40)*100` falls just below 57.5. -/
theorem category_rounding_counterexample :
    sumScores (calculateCASHScoreV2 roundingGapContent none 0).signals.content = 23 ∧
    (calculateCASHScoreV2 roundingGapContent none 0).signals.content.length = 4 ∧
    (calculateCASHScoreV2 roundingGapContent none 0).scores.content = 57 ∧
    roundHalfUpDiv (100 * 23) (10 * 4) = 58 := by decide

/-- The authenticity rule appends at most one offer. -/
theorem trustOffersBlock_length_le (scores : CASHScore) (signals : SignalGroups) :
    (trustOffersBlock scores signals).length ≤ 1 := by
  simp only [trustOffersBlock]
  split_ifs <;> simp

/-- The review-management rule appends at most one offer. -/
theorem reviewOffersBlock_length_le (scores : CASHScore) (signals : SignalGroups) :
    (reviewOffersBlock scores signals).length ≤ 1 := by
  unfold reviewOffersBlock
  cases signals.authority.find? (fun s => s.id == "signal_1_review_recency_volume") with
  | none => simp
  | some reviewSignal =>
    show (if scores.authority < 70 ∧ reviewSignal.score < 5 then [reviewManagementOffer scores]
      else []).length ≤ 1
    split_ifs <;> simp

/-- C7: with no reputation profile supplied, the not-found variant of the
local-visibility offer is always among the returned offers, whatever the
page scores, and it survives the truncation of the offer list to 4. -/
theorem local_dominance_present_when_no_profile (content : ScrapedContent) (now : Int) :
    localDominanceNotFound ∈ (calculateCASHScoreV2 content none now).offers := by
  simp only [calculateCASHScoreV2, generateOffers, gmbOffersBlock]
  exact mem_take_head2 _ _ _ _ _ (trustOffersBlock_length_le _ _)
    (reviewOffersBlock_length_le _ _)

/-- C10: for a supplied profile that was found but whose rating field or
review-count field is absent, the generator treats the absent field as 0,
so the low-rating or low-volume test holds and the high-priority
reputation-resurrection offer is always emitted, whatever the scores and
signals, and it survives the truncation to 4 offers. -/
theorem reputation_offer_on_absent_fields (scores : CASHScore) (signals : SignalGroups)
    (content : ScrapedContent) (detectedBusinessType : Option String) (g : GMBProfile)
    (now : Int) (hfound : g.found = true)
    (habsent : g.ratingTenths = none ∨ g.reviewCount = none) :
    reputationResurrectionOffer ∈
      generateOffers scores signals content detectedBusinessType (some g) now ∧
    reputationResurrectionOffer.priority = "high" := by
  refine ⟨?_, rfl⟩
  obtain ⟨tail, ht⟩ : ∃ tail, gmbOffersBlock (some g) now =
      reputationResurrectionOffer :: tail := by
    simp only [gmbOffersBlock]
    rcases habsent with h | h <;> simp [hfound, h]
  simp only [generateOffers, ht]
  exact mem_take_head2 _ _ _ _ _ (trustOffersBlock_length_le _ _)
    (reviewOffersBlock_length_le _ _)

/-- C10 witness: a found profile with an absent rating triggers the offer
even with perfect scores and no weak signals. -/
theorem reputation_offer_on_absent_fields_witness :
    reputationResurrectionOffer ∈
      generateOffers
        { overall := 100, content := 100, authority := 100, systems := 100, hypergrowth := 100 }
        { content := [], authority := [], systems := [], hypergrowth := [] }
        sampleContent none
        (some { found := true, ratingTenths := none, reviewCount := some 150,
                lastReviewDate := none, responseRate := none, score := 100 }) 0 ∧
    reputationResurrectionOffer.priority = "high" :=
  reputation_offer_on_absent_fields
    { overall := 100, content := 100, authority := 100, systems := 100, hypergrowth := 100 }
    { content := [], authority := [], systems := [], hypergrowth := [] }
    sampleContent none
    { found := true, ratingTenths := none, reviewCount := some 150,
      lastReviewDate := none, responseRate := none, score := 100 } 0 rfl (Or.inl rfl)

/-- A supplied profile carries no last-review timestamp (or no profile was
supplied): the only clock-dependent test of the engine cannot fire. -/
def noLastReviewDate : Option GMBProfile → Bool
  | some g => g.lastReviewDate == none
  | none => true

/-- The GMB offer rules do not depend on the clock when the profile has no
last-review timestamp. -/
theorem gmbOffersBlock_time_const (p : Option GMBProfile) (now1 now2 : Int)
    (h : noLastReviewDate p = true) : gmbOffersBlock p now1 = gmbOffersBlock p now2 := by
  cases p with
  | none => rfl
  | some g =>
    simp only [noLastReviewDate, beq_iff_eq] at h
    simp only [gmbOffersBlock, h]

/-- C5 (amended): the engine is deterministic given its inputs and the
clock reading; the scores, signals, priority issues and detected business
type never depend on the clock, and the offers are clock-independent
whenever the supplied profile carries no last-review timestamp (the
review-recency offer rule reads the current time). -/
theorem engine_determinism_and_clock (content : ScrapedContent)
    (gmbProfile : Option GMBProfile) (now1 now2 : Int) :
    ((calculateCASHScoreV2 content gmbProfile now1).scores =
        (calculateCASHScoreV2 content gmbProfile now2).scores ∧
      (calculateCASHScoreV2 content gmbProfile now1).signals =
        (calculateCASHScoreV2 content gmbProfile now2).signals ∧
      (calculateCASHScoreV2 content gmbProfile now1).priorityIssues =
        (calculateCASHScoreV2 content gmbProfile now2).priorityIssues ∧
      (calculateCASHScoreV2 content gmbProfile now1).detectedBusinessType =
        (calculateCASHScoreV2 content gmbProfile now2).detectedBusinessType) ∧
    (noLastReviewDate gmbProfile = true →
      calculateCASHScoreV2 content gmbProfile now1 =
        calculateCASHScoreV2 content gmbProfile now2) := by
  refine ⟨⟨rfl, rfl, rfl, rfl⟩, fun h => ?_⟩
  simp only [calculateCASHScoreV2, generateOffers,
    gmbOffersBlock_time_const gmbProfile now1 now2 h]

/-- C5 witness: clock independence at a concrete input with no profile. -/
theorem engine_determinism_and_clock_witness :
    calculateCASHScoreV2 sampleContent none 0 = calculateCASHScoreV2 sampleContent none 12345 :=
  (engine_determinism_and_clock sampleContent none 0 12345).2 (by decide)

/-- A found profile whose last review sits exactly at the epoch, with good
rating and volume. -/
def staleProfile : GMBProfile :=
  { found := true
    ratingTenths := some 49
    reviewCount := some 150
    lastReviewDate := some 0
    responseRate := some 100
    score := 60 }

set_option maxRecDepth 200000 in
/-- C5 counterexample: two invocations of the scoring entry point on the
same content and profile give different results at different clock
readings — 91 days past the last review the reputation-resurrection offer
appears. -/
theorem engine_time_dependence_counterexample :
    calculateCASHScoreV2 sampleContent (some staleProfile) 0 ≠
      calculateCASHScoreV2 sampleContent (some staleProfile) 7776000001 := by decide

/-- The automation signal as computed when every automation probe is
negative. -/
def zeroAutomationSignal : Signal :=
  { id := "signal_6_automation_infrastructure"
    label := "Automation Infrastructure"
    score := 0
    notes := "No instant client connection is possible (only a slow contact form). This is a huge leak in your acquisition system." }

/-- With a zero systems score, the zero automation signal and an
unclassified business type, the systems rule block emits exactly the
flagship offer carrying the default loss, then the scalability offer. -/
theorem systemsOffersBlock_zero (scores : CASHScore) (signals : SignalGroups)
    (content : ScrapedContent) (hs : scores.systems = 0)
    (hsig : signals.systems = [zeroAutomationSignal])
    (hbt : detectBusinessType content.text content.title = none) :
    systemsOffersBlock scores signals content =
      (aiReceptionistOffer scores
          (some (MISSED_CALLS_PER_MONTH * DEFAULT_PER_LEAD_VALUE)) :: []) ++
        [scalabilityArchitectureOffer scores] := by
  have hfind : List.find? (fun s => s.id == "signal_6_automation_infrastructure")
      [zeroAutomationSignal] = some zeroAutomationSignal := rfl
  have hml : calculateMonetizedLoss content.text content.title 0 0 =
      some (MISSED_CALLS_PER_MONTH * DEFAULT_PER_LEAD_VALUE) := by
    unfold calculateMonetizedLoss
    rw [if_neg (by decide), hbt]
  simp only [systemsOffersBlock, hsig, hs, hfind]
  simp only [zeroAutomationSignal]
  simp [hml]

/-- C6 (amended): for every input whose automation probes are all
negative, whose business type is unclassified, and with no reputation
profile supplied, the automation signal computes to 0, the systems
category to 0, and the flagship 24/7 AI-receptionist offer is among the
returned offers carrying the monetized loss `90 x 112` (the default
per-lead value). -/
theorem flagship_offer_and_default_loss (content : ScrapedContent) (now : Int)
    (h1 : content.features.bookingSystem = false)
    (h2 : content.features.aiChatbot = false)
    (h3 : content.features.crmIntegration = false)
    (h4 : content.features.emailAutomation = false)
    (h5 : content.features.paymentSystem = false)
    (hbt : detectBusinessType content.text content.title = none) :
    (calculateCASHScoreV2 content none now).scores.systems = 0 ∧
    (∀ s ∈ (calculateCASHScoreV2 content none now).signals.systems, s.score = 0) ∧
    aiReceptionistOffer (calculateCASHScoreV2 content none now).scores
        (some (MISSED_CALLS_PER_MONTH * DEFAULT_PER_LEAD_VALUE)) ∈
      (calculateCASHScoreV2 content none now).offers := by
  have hsig : calculateSystemsSignals content.features = [zeroAutomationSignal] := by
    simp [calculateSystemsSignals, h1, h2, h3, h4, h5, zeroAutomationSignal]
  have hscore : normalizeCategoryScore (calculateSystemsSignals content.features) = 0 := by
    rw [hsig]
    rfl
  refine ⟨hscore, ?_, ?_⟩
  · show ∀ s ∈ calculateSystemsSignals content.features, s.score = 0
    rw [hsig]
    intro s hs
    simp only [List.mem_cons, List.not_mem_nil, or_false] at hs
    subst hs
    rfl
  · simp only [calculateCASHScoreV2, generateOffers, gmbOffersBlock]
    rw [systemsOffersBlock_zero _ _ _ hscore hsig hbt]
    exact mem_take_head3 _ _ _ _ _ _ (trustOffersBlock_length_le _ _)
      (reviewOffersBlock_length_le _ _) (by simp)

/-- C6 witness: the amended statement at a concrete input with empty text
and all probes negative. -/
theorem flagship_offer_and_default_loss_witness :
    (calculateCASHScoreV2 sampleContent none 0).scores.systems = 0 ∧
    (∀ s ∈ (calculateCASHScoreV2 sampleContent none 0).signals.systems, s.score = 0) ∧
    aiReceptionistOffer (calculateCASHScoreV2 sampleContent none 0).scores
        (some (MISSED_CALLS_PER_MONTH * DEFAULT_PER_LEAD_VALUE)) ∈
      (calculateCASHScoreV2 sampleContent none 0).offers :=
  flagship_offer_and_default_loss sampleContent 0 rfl rfl rfl rfl rfl (by decide)

/-- A page whose text names a dentist but contains no automation marker. -/
def dentistContent : ScrapedContent :=
  { title := "", text := "dentist", url := "", features := emptyFeatures }

set_option maxRecDepth 200000 in
/-- C6 counterexample: a dentist page with no automation markers gets a
monetized loss of `90 x 200` (the dentist per-lead value) on the flagship
offer, not `90 x 112` as the claim states for every such input. -/
theorem flagship_default_loss_counterexample :
    dentistContent.features.bookingSystem = false ∧
    dentistContent.features.aiChatbot = false ∧
    dentistContent.features.crmIntegration = false ∧
    dentistContent.features.emailAutomation = false ∧
    dentistContent.features.paymentSystem = false ∧
    (calculateCASHScoreV2 dentistContent none 0).offers.any
      (fun o => o.id == "ai_receptionist" &&
        o.monetizedLoss == some (MISSED_CALLS_PER_MONTH * 200)) = true ∧
    MISSED_CALLS_PER_MONTH * 200 ≠ MISSED_CALLS_PER_MONTH * DEFAULT_PER_LEAD_VALUE := by
  decide

set_option maxRecDepth 100000 in
/-- Validation of the binary64 model on the two category sizes the engine
uses: the values of `Math.round((t/40)*100)` for `t = 0..40` (note 57, not
58, at `t = 23`) and of `Math.round((t/10)*100)` for `t = 0..10`, as a
JavaScript engine computes them. -/
theorem jsNormalize_tables :
    (List.range 41).map (fun t => jsNormalize t 40) =
      [0, 3, 5, 8, 10, 13, 15, 18, 20, 23, 25, 28, 30, 33, 35, 38, 40, 43, 45, 48, 50,
       53, 55, 57, 60, 63, 65, 68, 70, 73, 75, 78, 80, 83, 85, 88, 90, 93, 95, 98, 100] ∧
    (List.range 11).map (fun t => jsNormalize t 10) =
      [0, 10, 20, 30, 40, 50, 60, 70, 80, 90, 100] := by decide

end CashEngine
